import Mathlib

/-!
# Error taxonomy and status mapping (`pkg/errors/errors.go`)

A shallow embedding of the `errors` package of the URL shortener services:
the `AppError` value, its HTTP and gRPC status tables, the reverse conversion
`FromGRPCError`, the detail map mutator and the `ValidationErrors` batch.

Conventions of the embedding

* A Go `error` interface value is a `GoError`; the nil interface is `GoError.nil`.
* A `*AppError` result that may be nil is an `Option AppError`.
* A call that may panic has an `Outcome`: it returns a value or it panics.
* Mutating methods that return their receiver (`WithDetail`, `Add`) are functions
  from the old value to the new one.
* `map[string]interface{}` is a finite map from `String` to `Value`; the nil map
  is `none`.
* `codes.Code` is a `uint32`; it is embedded as a `Nat` (no arithmetic is done on it).
* A `*AppError` receiver, and each element of `ValidationErrors.Errors`, is a non-nil
  pointer: an `AppError` value. A non-nil `error` interface that holds a nil
  `*AppError` is the value `GoError.nilAppError`; a method called on it panics where
  it first reads a field.
* The library `google.golang.org/grpc/status` is embedded from its documented
  behaviour: `status.New`, `(*Status).Err` and `status.FromError`; so is `errors.As`.
* A Go `switch` is an `if ... else if ...` chain in the order of its cases.
-/

set_option autoImplicit false

/-! ## Values held by the detail map -/

/-- A Go `interface{}` value as far as the detail map is concerned:
a tagged union of the scalar kinds a caller stores. -/
inductive Value where
  | null
  | int (n : Int)
  | str (s : String)
  | bool (b : Bool)
  deriving DecidableEq, Repr

/-- Go `map[string]interface{}` (non-nil): finite, keys unique, order irrelevant. -/
abbrev DetailMap := Finmap (fun _ : String => Value)

/-! ## Error codes (lines 12-45) -/

abbrev CodeInternal : String := "INTERNAL_ERROR"
abbrev CodeValidation : String := "VALIDATION_ERROR"
abbrev CodeNotFound : String := "NOT_FOUND"
abbrev CodeAlreadyExists : String := "ALREADY_EXISTS"
abbrev CodeUnauthorized : String := "UNAUTHORIZED"
abbrev CodeForbidden : String := "FORBIDDEN"
abbrev CodeRateLimit : String := "RATE_LIMITED"
abbrev CodeTimeout : String := "TIMEOUT"
abbrev CodeInvalidURL : String := "INVALID_URL"
abbrev CodeURLNotAccessible : String := "URL_NOT_ACCESSIBLE"
abbrev CodeCustomCodeTaken : String := "CUSTOM_CODE_TAKEN"
abbrev CodeURLExpired : String := "URL_EXPIRED"
abbrev CodePasswordRequired : String := "PASSWORD_REQUIRED"
abbrev CodeInvalidPassword : String := "INVALID_PASSWORD"
abbrev CodeEmailTaken : String := "EMAIL_TAKEN"
abbrev CodeUsernameTaken : String := "USERNAME_TAKEN"
abbrev CodeInvalidCredentials : String := "INVALID_CREDENTIALS"
abbrev CodeEmailNotVerified : String := "EMAIL_NOT_VERIFIED"
abbrev CodeInvalidToken : String := "INVALID_TOKEN"
abbrev CodeExpiredToken : String := "EXPIRED_TOKEN"
abbrev CodeInvalidAPIKey : String := "INVALID_API_KEY"
abbrev CodeAPIKeyExpired : String := "API_KEY_EXPIRED"
abbrev CodeInvalidDateRange : String := "INVALID_DATE_RANGE"
abbrev CodeNoAnalyticsData : String := "NO_ANALYTICS_DATA"

/-- The closed enum of the 24 error codes declared in the `const` block. -/
def enumCodes : List String :=
  [CodeInternal, CodeValidation, CodeNotFound, CodeAlreadyExists, CodeUnauthorized,
   CodeForbidden, CodeRateLimit, CodeTimeout,
   CodeInvalidURL, CodeURLNotAccessible, CodeCustomCodeTaken, CodeURLExpired,
   CodePasswordRequired, CodeInvalidPassword,
   CodeEmailTaken, CodeUsernameTaken, CodeInvalidCredentials, CodeEmailNotVerified,
   CodeInvalidToken, CodeExpiredToken, CodeInvalidAPIKey, CodeAPIKeyExpired,
   CodeInvalidDateRange, CodeNoAnalyticsData]

/-! ## Library constants: `net/http` and `google.golang.org/grpc/codes` -/

namespace http

abbrev StatusBadRequest : Nat := 400
abbrev StatusUnauthorized : Nat := 401
abbrev StatusForbidden : Nat := 403
abbrev StatusNotFound : Nat := 404
abbrev StatusRequestTimeout : Nat := 408
abbrev StatusConflict : Nat := 409
abbrev StatusUnprocessableEntity : Nat := 422
abbrev StatusTooManyRequests : Nat := 429
abbrev StatusInternalServerError : Nat := 500

end http

namespace codes

/-- The gRPC status code, `type Code uint32`. -/
abbrev Code := Nat

abbrev OK : Code := 0
abbrev Canceled : Code := 1
abbrev Unknown : Code := 2
abbrev InvalidArgument : Code := 3
abbrev DeadlineExceeded : Code := 4
abbrev NotFound : Code := 5
abbrev AlreadyExists : Code := 6
abbrev PermissionDenied : Code := 7
abbrev ResourceExhausted : Code := 8
abbrev FailedPrecondition : Code := 9
abbrev Aborted : Code := 10
abbrev OutOfRange : Code := 11
abbrev Unimplemented : Code := 12
abbrev Internal : Code := 13
abbrev Unavailable : Code := 14
abbrev DataLoss : Code := 15
abbrev Unauthenticated : Code := 16

/-- The library's `Code.String()`: the canonical name, `Code(n)` outside the table. -/
def Code.String (c : Code) : String :=
  match c with
  | 0 => "OK"
  | 1 => "Canceled"
  | 2 => "Unknown"
  | 3 => "InvalidArgument"
  | 4 => "DeadlineExceeded"
  | 5 => "NotFound"
  | 6 => "AlreadyExists"
  | 7 => "PermissionDenied"
  | 8 => "ResourceExhausted"
  | 9 => "FailedPrecondition"
  | 10 => "Aborted"
  | 11 => "OutOfRange"
  | 12 => "Unimplemented"
  | 13 => "Internal"
  | 14 => "Unavailable"
  | 15 => "DataLoss"
  | 16 => "Unauthenticated"
  | n => "Code(" ++ toString n ++ ")"

end codes

/-! ## The gRPC status value and the universe of errors -/

/-- The library's `status.Status`, reduced to what this package reads: the code
and the message. A nil `*Status` reads as code `OK` and message `""`. -/
structure Status where
  code : codes.Code
  message : String
  deriving DecidableEq, Repr

/-- The library's `status.New(c, msg)`. -/
def status.New (c : codes.Code) (msg : String) : Status :=
  { code := c, message := msg }

/-- What a call comes to: it returns a value, or it panics (in this package always
by reading a field through a nil pointer). -/
inductive Outcome (α : Type) where
  | returns (value : α)
  | panics

/-- A Go `error` interface value, by the kinds this package can tell apart:
the nil interface, an error that is only text (`errors.New`), an error that wraps
another one (`fmt.Errorf` with `%w`: own text, `Unwrap` gives `err`), the library's
`*status.Error`, this package's `*AppError` (its five fields), and a non-nil
interface that holds the nil pointer `(*AppError)(nil)`. -/
inductive GoError where
  | nil
  | errorString (s : String)
  | wrapError (msg : String) (err : GoError)
  | statusError (code : codes.Code) (message : String)
  | appError (Code Message Field : String) (Details : Option DetailMap) (Cause : GoError)
  | nilAppError

/-- The struct `AppError` (lines 47-54). -/
structure AppError where
  Code : String
  Message : String
  Field : String := ""
  Details : Option DetailMap := none
  Cause : GoError := GoError.nil

/-- A `*AppError` seen as an `error` interface value. -/
def AppError.toError (e : AppError) : GoError :=
  GoError.appError e.Code e.Message e.Field e.Details e.Cause

/-- A `*AppError` that may be the nil pointer, stored in an `error` interface: the
interface is not nil even when the pointer is. -/
def pointerToError : Option AppError → GoError
  | some e => e.toError
  | none => GoError.nilAppError

/-- The text of an error: its `Error()` method, which is also what `%v` prints;
`%v` prints the nil interface as `<nil>`, and prints `<nil>` too for a nil
`*AppError`, whose `Error()` panics on the nil receiver (`fmt` recovers it). The
package reads the text of a nil `*AppError` only through `%v`. The `appError` cases
are lines 57-62. -/
def GoError.Error : GoError → String
  | GoError.nil => "<nil>"
  | GoError.nilAppError => "<nil>"
  | GoError.errorString s => s
  | GoError.wrapError msg _ => msg
  | GoError.statusError c m =>
      "rpc error: code = " ++ codes.Code.String c ++ " desc = " ++ m
  | GoError.appError code msg _ _ GoError.nil => code ++ ": " ++ msg
  | GoError.appError code msg _ _ cause =>
      code ++ ": " ++ msg ++ " (caused by: " ++ GoError.Error cause ++ ")"

/-- Whether an error interface value is nil (`err == nil`); an interface holding a
nil pointer is not. -/
def GoError.isNil : GoError → Bool
  | GoError.nil => true
  | _ => false

/-- `(*AppError).Error` (lines 57-62). -/
def AppError.Error (e : AppError) : String :=
  if e.Cause.isNil = false then
    e.Code ++ ": " ++ e.Message ++ " (caused by: " ++ e.Cause.Error ++ ")"
  else
    e.Code ++ ": " ++ e.Message

/-- `(*AppError).Unwrap` (lines 65-67). -/
def AppError.Unwrap (e : AppError) : GoError :=
  e.Cause

/-- `(*AppError).WithField` (lines 70-73). -/
def AppError.WithField (e : AppError) (field : String) : AppError :=
  { e with Field := field }

/-- `(*AppError).WithDetail` (lines 76-82): the map is made when it is nil, then
`e.Details[key] = value`. -/
def AppError.WithDetail (e : AppError) (key : String) (value : Value) : AppError :=
  let details : DetailMap :=
    match e.Details with
    | none => ∅
    | some m => m
  { e with Details := some (details.insert key value) }

/-- `(*AppError).WithCause` (lines 85-88). -/
def AppError.WithCause (e : AppError) (cause : GoError) : AppError :=
  { e with Cause := cause }

/-- `New` (lines 91-96). -/
def New (code message : String) : AppError :=
  { Code := code, Message := message }

/-- `Wrap` (lines 107-113). -/
def Wrap (err : GoError) (code message : String) : AppError :=
  { Code := code, Message := message, Cause := err }

/-- `Internal` (lines 125-127). -/
def Internal (message : String) : AppError :=
  New CodeInternal message

/-! ## Status mapping (lines 181-245) -/

/-- `(*AppError).HTTPStatus` (lines 182-215): the `switch` read top to bottom. -/
def AppError.HTTPStatus (e : AppError) : Nat :=
  if e.Code = CodeValidation then http.StatusBadRequest
  else if e.Code = CodeNotFound then http.StatusNotFound
  else if e.Code = CodeAlreadyExists then http.StatusConflict
  else if e.Code = CodeUnauthorized ∨ e.Code = CodeInvalidCredentials ∨
      e.Code = CodeInvalidToken ∨ e.Code = CodeExpiredToken then http.StatusUnauthorized
  else if e.Code = CodeForbidden then http.StatusForbidden
  else if e.Code = CodeRateLimit then http.StatusTooManyRequests
  else if e.Code = CodeTimeout then http.StatusRequestTimeout
  else if e.Code = CodeInvalidURL ∨ e.Code = CodeCustomCodeTaken ∨
      e.Code = CodePasswordRequired ∨ e.Code = CodeInvalidPassword then http.StatusBadRequest
  else if e.Code = CodeURLNotAccessible ∨ e.Code = CodeURLExpired then
    http.StatusUnprocessableEntity
  else if e.Code = CodeEmailTaken ∨ e.Code = CodeUsernameTaken then http.StatusConflict
  else if e.Code = CodeEmailNotVerified then http.StatusForbidden
  else if e.Code = CodeInvalidAPIKey ∨ e.Code = CodeAPIKeyExpired then http.StatusUnauthorized
  else if e.Code = CodeInvalidDateRange then http.StatusBadRequest
  else if e.Code = CodeNoAnalyticsData then http.StatusNotFound
  else http.StatusInternalServerError

/-- The `switch` of `GRPCStatus` (lines 221-242): the gRPC code chosen for an
error code string. -/
def grpcCodeOf (code : String) : codes.Code :=
  if code = CodeValidation ∨ code = CodeInvalidURL ∨ code = CodeCustomCodeTaken ∨
      code = CodePasswordRequired ∨ code = CodeInvalidPassword ∨
      code = CodeInvalidDateRange then codes.InvalidArgument
  else if code = CodeNotFound ∨ code = CodeNoAnalyticsData then codes.NotFound
  else if code = CodeAlreadyExists ∨ code = CodeEmailTaken ∨ code = CodeUsernameTaken then
    codes.AlreadyExists
  else if code = CodeUnauthorized ∨ code = CodeInvalidCredentials ∨
      code = CodeInvalidToken ∨ code = CodeExpiredToken ∨ code = CodeInvalidAPIKey ∨
      code = CodeAPIKeyExpired then codes.Unauthenticated
  else if code = CodeForbidden ∨ code = CodeEmailNotVerified then codes.PermissionDenied
  else if code = CodeRateLimit then codes.ResourceExhausted
  else if code = CodeTimeout then codes.DeadlineExceeded
  else if code = CodeURLNotAccessible then codes.FailedPrecondition
  else if code = CodeURLExpired then codes.NotFound
  else codes.Internal

/-- `(*AppError).GRPCStatus` (lines 218-245). -/
def AppError.GRPCStatus (e : AppError) : Status :=
  status.New (grpcCodeOf e.Code) e.Message

/-! ## The library's `status` package, as far as `FromGRPCError` uses it -/

/-- The library's `(*Status).Err()`: nil for code `OK`, else a `*status.Error`
holding the status. -/
def Status.Err (s : Status) : GoError :=
  if s.code = codes.OK then GoError.nil else GoError.statusError s.code s.message

/-- The status of the first error on the `Unwrap` chain that has a `GRPCStatus()`
method (`errors.As` with that interface as target, then the call of the method). A
`*status.Error` and a `*AppError` both have the method; on a nil `*AppError` the
method panics when it reads `e.Code` (line 221). -/
def findGRPCStatus : GoError → Outcome (Option Status)
  | GoError.nil => Outcome.returns none
  | GoError.errorString _ => Outcome.returns none
  | GoError.wrapError _ err => findGRPCStatus err
  | GoError.statusError c m => Outcome.returns (some (status.New c m))
  | GoError.appError code msg field details cause =>
      Outcome.returns (some (AppError.GRPCStatus
        { Code := code, Message := msg, Field := field, Details := details, Cause := cause }))
  | GoError.nilAppError => Outcome.panics

/-- The library's `status.FromError`: nil gives (nil, true); an error with a
`GRPCStatus()` method gives that status and true; an error that wraps one gives
the wrapped status's code with the whole `err.Error()` as message, and true;
anything else gives an `Unknown` status and false. The call of `GRPCStatus()` on a
nil `*AppError` panics. -/
def status.FromError (err : GoError) : Outcome (Status × Bool) :=
  match err with
  | GoError.nil => Outcome.returns (status.New codes.OK "", true)
  | GoError.statusError c m => Outcome.returns (status.New c m, true)
  | GoError.appError code msg field details cause =>
      Outcome.returns (AppError.GRPCStatus
        { Code := code, Message := msg, Field := field, Details := details, Cause := cause },
       true)
  | GoError.nilAppError => Outcome.panics
  | GoError.errorString _ => Outcome.returns (status.New codes.Unknown err.Error, false)
  | GoError.wrapError _ _ =>
      match findGRPCStatus err with
      | Outcome.returns (some st) => Outcome.returns (status.New st.code err.Error, true)
      | Outcome.returns none => Outcome.returns (status.New codes.Unknown err.Error, false)
      | Outcome.panics => Outcome.panics

/-! ## Reverse conversion (lines 262-300) -/

/-- The `switch` of `FromGRPCError` (lines 273-293): the error code string chosen
for a gRPC code. -/
def appCodeOf (c : codes.Code) : String :=
  if c = codes.InvalidArgument then CodeValidation
  else if c = codes.NotFound then CodeNotFound
  else if c = codes.AlreadyExists then CodeAlreadyExists
  else if c = codes.Unauthenticated then CodeUnauthorized
  else if c = codes.PermissionDenied then CodeForbidden
  else if c = codes.ResourceExhausted then CodeRateLimit
  else if c = codes.DeadlineExceeded then CodeTimeout
  else if c = codes.FailedPrecondition then CodeValidation
  else CodeInternal

/-- `FromGRPCError` (lines 263-300). A panic of `status.FromError` goes through. -/
def FromGRPCError (err : GoError) : Outcome (Option AppError) :=
  if err.isNil then Outcome.returns none
  else
    match status.FromError err with
    | Outcome.panics => Outcome.panics
    | Outcome.returns (st, ok) =>
        if !ok then Outcome.returns (some (Internal "unknown gRPC error"))
        else Outcome.returns
          (some { Code := appCodeOf st.code, Message := st.message, Cause := err })

/-! ## Validation batch (lines 302-348) -/

/-- The struct `ValidationErrors` (lines 303-305). -/
structure ValidationErrors where
  Errors : List AppError

/-- `NewValidationErrors` (lines 344-348). -/
def NewValidationErrors : ValidationErrors :=
  { Errors := [] }

/-- `(*ValidationErrors).Error` (lines 308-313). -/
def ValidationErrors.Error (v : ValidationErrors) : String :=
  match v.Errors with
  | [] => "validation failed"
  | first :: _ => "validation failed: " ++ first.Message

/-- `(*ValidationErrors).Add` (lines 316-322). -/
def ValidationErrors.Add (v : ValidationErrors) (field code message : String) :
    ValidationErrors :=
  { Errors := v.Errors ++ [{ Code := code, Message := message, Field := field }] }

/-- `(*ValidationErrors).Addf` (lines 325-331). The library's `fmt.Sprintf` is the
parameter `Sprintf`. -/
def ValidationErrors.Addf (Sprintf : String → List Value → String) (v : ValidationErrors)
    (field code format : String) (args : List Value) : ValidationErrors :=
  { Errors := v.Errors ++ [{ Code := code, Message := Sprintf format args, Field := field }] }

/-- `(*ValidationErrors).HasErrors` (lines 334-336). -/
def ValidationErrors.HasErrors (v : ValidationErrors) : Bool :=
  decide (v.Errors.length > 0)

/-- `(*ValidationErrors).HTTPStatus` (lines 339-341). -/
def ValidationErrors.HTTPStatus (_v : ValidationErrors) : Nat :=
  http.StatusBadRequest

/-! ## Histories used to state the claims -/

/-- A chain of `Wrap` calls around `base`: the head of `layers` is the outermost
(code, message), each layer's cause is the chain built from the rest. -/
def wrapChain (base : GoError) : List (String × String) → GoError
  | [] => base
  | layer :: rest => (Wrap (wrapChain base rest) layer.1 layer.2).toError

/-- One call that appends to a validation batch: `Add` or `Addf`, with its arguments. -/
inductive AddCall where
  | add (field code message : String)
  | addf (field code format : String) (args : List Value)

/-- Run one `Add` or `Addf` call on a batch. -/
def AddCall.run (Sprintf : String → List Value → String) (v : ValidationErrors) :
    AddCall → ValidationErrors
  | AddCall.add field code message => v.Add field code message
  | AddCall.addf field code format args => v.Addf Sprintf field code format args

/-- The message a call gives its error: the message argument of `Add`, the formatted
text of `Addf`. -/
def AddCall.message (Sprintf : String → List Value → String) : AddCall → String
  | AddCall.add _ _ message => message
  | AddCall.addf _ _ format args => Sprintf format args

/-- The batch after `NewValidationErrors()` and the calls of `calls`, in order. -/
def runCalls (Sprintf : String → List Value → String) (calls : List AddCall) :
    ValidationErrors :=
  calls.foldl (AddCall.run Sprintf) NewValidationErrors


/-- The field argument of an `Add` or `Addf` call. -/
def AddCall.field : AddCall → String
  | AddCall.add field _ _ => field
  | AddCall.addf field _ _ _ => field

/-! ## Type inspection (lines 247-260) -/

/-- The library's `errors.As(err, &appErr)` with `appErr` a `*AppError`: walk the
`Unwrap` chain from `err`, stop at the first error whose type is `*AppError` and copy
that pointer into `appErr`, nil pointer included (the type is looked at, no method
is called). `none` stands for the result false, `some p` for true with `appErr` set
to `p`. An error of text only and a `*status.Error` have no `Unwrap` method. -/
def errorsAsAppError : GoError → Option (Option AppError)
  | GoError.nil => none
  | GoError.errorString _ => none
  | GoError.wrapError _ err => errorsAsAppError err
  | GoError.statusError _ _ => none
  | GoError.appError code msg field details cause =>
      some (some
        { Code := code, Message := msg, Field := field, Details := details, Cause := cause })
  | GoError.nilAppError => some none

/-- `IsAppError` (lines 248-251). -/
def IsAppError (err : GoError) : Bool :=
  (errorsAsAppError err).isSome

/-- `AsAppError` (lines 254-260): the pointer `errors.As` stored, nil when it
reported false. -/
def AsAppError (err : GoError) : Option AppError :=
  match errorsAsAppError err with
  | some appErr => appErr
  | none => none

/-- The type assertion `err.(*AppError)`: `some p` when the type of `err` is
`*AppError`, with `p` the pointer it holds (`none` for the nil pointer). -/
def GoError.asAppError : GoError → Option (Option AppError)
  | GoError.appError code msg field details cause =>
      some (some
        { Code := code, Message := msg, Field := field, Details := details, Cause := cause })
  | GoError.nilAppError => some none
  | _ => none

/-- The cause chain of the specification: `err` itself, then every error reached by
unwrapping again and again (`Unwrap` of a wrapping error, `Cause` of an `AppError`),
outermost first, up to the first nil. A nil `*AppError` ends the chain: it has no
cause to read. -/
def causeChain : GoError → List GoError
  | GoError.nil => []
  | GoError.errorString s => [GoError.errorString s]
  | GoError.wrapError msg err => GoError.wrapError msg err :: causeChain err
  | GoError.statusError c m => [GoError.statusError c m]
  | GoError.appError code msg field details cause =>
      GoError.appError code msg field details cause :: causeChain cause
  | GoError.nilAppError => [GoError.nilAppError]

/-- Whether `status.FromError` meets a nil `*AppError` as the first error with a
`GRPCStatus()` method on the `Unwrap` chain of `err`: `err` is one, or wraps one
through wrappers that have no such method. -/
def holdsNilAppError : GoError → Bool
  | GoError.nilAppError => true
  | GoError.wrapError _ err => holdsNilAppError err
  | _ => false

/-! ## Shared lemmas -/

/-- The forward gRPC table only ever produces one of nine codes. -/
theorem grpcCodeOf_range (code : String) :
    grpcCodeOf code = codes.InvalidArgument ∨ grpcCodeOf code = codes.NotFound ∨
    grpcCodeOf code = codes.AlreadyExists ∨ grpcCodeOf code = codes.Unauthenticated ∨
    grpcCodeOf code = codes.PermissionDenied ∨ grpcCodeOf code = codes.ResourceExhausted ∨
    grpcCodeOf code = codes.DeadlineExceeded ∨ grpcCodeOf code = codes.FailedPrecondition ∨
    grpcCodeOf code = codes.Internal := by
  unfold grpcCodeOf
  split_ifs <;> simp

/-- The forward gRPC table never produces `OK`, so `Err()` of its status is not nil. -/
theorem grpcCodeOf_ne_OK (code : String) : grpcCodeOf code ≠ codes.OK := by
  rcases grpcCodeOf_range code with h | h | h | h | h | h | h | h | h <;> rw [h] <;> decide

/-- The reverse table only ever produces one of eight error codes. -/
theorem appCodeOf_range (c : codes.Code) :
    appCodeOf c ∈ [CodeValidation, CodeNotFound, CodeAlreadyExists, CodeUnauthorized,
      CodeForbidden, CodeRateLimit, CodeTimeout, CodeInternal] := by
  unfold appCodeOf
  split_ifs <;> simp

/-- What `FromGRPCError` returns on a `*status.Error`. -/
theorem FromGRPCError_statusError (c : codes.Code) (m : String) :
    FromGRPCError (GoError.statusError c m) =
      Outcome.returns
        (some { Code := appCodeOf c, Message := m, Cause := GoError.statusError c m }) := by
  rfl

/-- Outside the enum the gRPC table falls to its default. -/
theorem grpcCodeOf_not_enum (code : String) (h : code ∉ enumCodes) :
    grpcCodeOf code = codes.Internal := by
  simp only [enumCodes, List.mem_cons, List.mem_singleton, not_or, List.not_mem_nil,
    not_false_eq_true, and_true] at h
  obtain ⟨_, h2, h3, h4, h5, h6, h7, h8, h9, h10, h11, h12, h13, h14, h15, h16, h17, h18,
    h19, h20, h21, h22, h23, h24⟩ := h
  simp [grpcCodeOf, h2, h3, h4, h5, h6, h7, h8, h9, h10, h11, h12, h13, h14,
    h15, h16, h17, h18, h19, h20, h21, h22, h23, h24]

set_option maxRecDepth 8192 in
/-- The gRPC code that the forward switch gives each code of the enum, and the error
code that the reverse switch gives back for it, read off case by case. -/
theorem roundtrip_table :
    (∀ code ∈ [CodeValidation, CodeInvalidURL, CodeCustomCodeTaken, CodePasswordRequired,
        CodeInvalidPassword, CodeInvalidDateRange],
      grpcCodeOf code = codes.InvalidArgument ∧ appCodeOf (grpcCodeOf code) = CodeValidation) ∧
    (∀ code ∈ [CodeNotFound, CodeNoAnalyticsData, CodeURLExpired],
      grpcCodeOf code = codes.NotFound ∧ appCodeOf (grpcCodeOf code) = CodeNotFound) ∧
    (∀ code ∈ [CodeAlreadyExists, CodeEmailTaken, CodeUsernameTaken],
      grpcCodeOf code = codes.AlreadyExists ∧
      appCodeOf (grpcCodeOf code) = CodeAlreadyExists) ∧
    (∀ code ∈ [CodeUnauthorized, CodeInvalidCredentials, CodeInvalidToken, CodeExpiredToken,
        CodeInvalidAPIKey, CodeAPIKeyExpired],
      grpcCodeOf code = codes.Unauthenticated ∧
      appCodeOf (grpcCodeOf code) = CodeUnauthorized) ∧
    (∀ code ∈ [CodeForbidden, CodeEmailNotVerified],
      grpcCodeOf code = codes.PermissionDenied ∧ appCodeOf (grpcCodeOf code) = CodeForbidden) ∧
    (∀ code ∈ [CodeRateLimit],
      grpcCodeOf code = codes.ResourceExhausted ∧ appCodeOf (grpcCodeOf code) = CodeRateLimit) ∧
    (∀ code ∈ [CodeTimeout],
      grpcCodeOf code = codes.DeadlineExceeded ∧ appCodeOf (grpcCodeOf code) = CodeTimeout) ∧
    (∀ code ∈ [CodeURLNotAccessible],
      grpcCodeOf code = codes.FailedPrecondition ∧
      appCodeOf (grpcCodeOf code) = CodeValidation) ∧
    (∀ code ∈ [CodeInternal],
      grpcCodeOf code = codes.Internal ∧ appCodeOf (grpcCodeOf code) = CodeInternal) := by
  decide

/-- The error that `GRPCStatus().Err()` gives: a `*status.Error`, never nil. -/
theorem GRPCStatus_Err (e : AppError) :
    e.GRPCStatus.Err = GoError.statusError (grpcCodeOf e.Code) e.Message := by
  simp only [Status.Err, AppError.GRPCStatus, status.New]
  rw [if_neg (grpcCodeOf_ne_OK e.Code)]

/-- An error is not the nil interface exactly when `isNil` is false. -/
theorem GoError.isNil_eq_false (err : GoError) (h : err ≠ GoError.nil) :
    err.isNil = false := by
  cases err <;> simp_all [GoError.isNil]

/-- What `status.FromError` comes to on a wrapping error, by what the walk finds. -/
theorem FromError_wrapError (msg : String) (inner : GoError) :
    (holdsNilAppError inner = true ∧
      status.FromError (GoError.wrapError msg inner) = Outcome.panics) ∨
    (holdsNilAppError inner = false ∧
      ∃ (st : Status) (ok : Bool),
        status.FromError (GoError.wrapError msg inner) = Outcome.returns (st, ok)) := by
  have key : (holdsNilAppError inner = true ∧ findGRPCStatus inner = Outcome.panics) ∨
      (holdsNilAppError inner = false ∧ ∃ r, findGRPCStatus inner = Outcome.returns r) := by
    induction inner with
    | nil => exact Or.inr ⟨rfl, _, rfl⟩
    | errorString s => exact Or.inr ⟨rfl, _, rfl⟩
    | wrapError m2 inner2 ih => simpa [holdsNilAppError, findGRPCStatus] using ih
    | statusError c m => exact Or.inr ⟨rfl, _, rfl⟩
    | appError code m2 field details cause _ => exact Or.inr ⟨rfl, _, rfl⟩
    | nilAppError => exact Or.inl ⟨rfl, rfl⟩
  rcases key with ⟨h1, h2⟩ | ⟨h1, r, h2⟩
  · exact Or.inl ⟨h1, by simp [status.FromError, findGRPCStatus, h2]⟩
  · refine Or.inr ⟨h1, ?_⟩
    cases r with
    | none =>
        exact ⟨status.New codes.Unknown (GoError.wrapError msg inner).Error, false,
          by simp [status.FromError, findGRPCStatus, h2]⟩
    | some st =>
        exact ⟨status.New st.code (GoError.wrapError msg inner).Error, true,
          by simp [status.FromError, findGRPCStatus, h2]⟩

/-- An error is the nil interface exactly when `isNil` says so. -/
theorem GoError.isNil_iff (err : GoError) : err.isNil = true ↔ err = GoError.nil := by
  cases err <;> simp [GoError.isNil]

/-- The text of an `AppError` seen as an `error` is its own `Error()`. -/
theorem AppError.toError_Error (e : AppError) : e.toError.Error = e.Error := by
  obtain ⟨code, msg, field, details, cause⟩ := e
  cases cause <;> simp [AppError.toError, AppError.Error, GoError.Error, GoError.isNil]

/-! ## Claims -/

/-- C1: round trip through the RPC status. For every `AppError` `e`,
`FromGRPCError(e.GRPCStatus().Err())` is a non-nil `AppError` whose `Message` is
`e.Message` and whose `Code` is the reverse table's code for the RPC code that
`GRPCStatus` gives `e.Code`, one of the eight canonical codes. Code by code: the six
codes sent to `InvalidArgument`, and `URL_NOT_ACCESSIBLE` (sent to
`FailedPrecondition`), come back as `VALIDATION_ERROR`; the three sent to `NotFound`
as `NOT_FOUND`; the three sent to `AlreadyExists` as `ALREADY_EXISTS`; the six sent
to `Unauthenticated` as `UNAUTHORIZED`; the two sent to `PermissionDenied` as
`FORBIDDEN`; `RATE_LIMITED` and `TIMEOUT` as themselves; `INTERNAL_ERROR` and every
code outside the enum (sent to `Internal`) as `INTERNAL_ERROR`. -/
theorem FromGRPCError_GRPCStatus_roundtrip (e : AppError) :
    ∃ r : AppError, FromGRPCError e.GRPCStatus.Err = Outcome.returns (some r) ∧
      r.Message = e.Message ∧
      r.Code = appCodeOf e.GRPCStatus.code ∧
      r.Code ∈ [CodeValidation, CodeNotFound, CodeAlreadyExists, CodeUnauthorized,
        CodeForbidden, CodeRateLimit, CodeTimeout, CodeInternal] ∧
      (e.Code ∈ [CodeValidation, CodeInvalidURL, CodeCustomCodeTaken, CodePasswordRequired,
          CodeInvalidPassword, CodeInvalidDateRange] →
        e.GRPCStatus.code = codes.InvalidArgument ∧ r.Code = "VALIDATION_ERROR") ∧
      (e.Code ∈ [CodeNotFound, CodeNoAnalyticsData, CodeURLExpired] →
        e.GRPCStatus.code = codes.NotFound ∧ r.Code = "NOT_FOUND") ∧
      (e.Code ∈ [CodeAlreadyExists, CodeEmailTaken, CodeUsernameTaken] →
        e.GRPCStatus.code = codes.AlreadyExists ∧ r.Code = "ALREADY_EXISTS") ∧
      (e.Code ∈ [CodeUnauthorized, CodeInvalidCredentials, CodeInvalidToken,
          CodeExpiredToken, CodeInvalidAPIKey, CodeAPIKeyExpired] →
        e.GRPCStatus.code = codes.Unauthenticated ∧ r.Code = "UNAUTHORIZED") ∧
      (e.Code ∈ [CodeForbidden, CodeEmailNotVerified] →
        e.GRPCStatus.code = codes.PermissionDenied ∧ r.Code = "FORBIDDEN") ∧
      (e.Code ∈ [CodeRateLimit] →
        e.GRPCStatus.code = codes.ResourceExhausted ∧ r.Code = "RATE_LIMITED") ∧
      (e.Code ∈ [CodeTimeout] →
        e.GRPCStatus.code = codes.DeadlineExceeded ∧ r.Code = "TIMEOUT") ∧
      (e.Code ∈ [CodeURLNotAccessible] →
        e.GRPCStatus.code = codes.FailedPrecondition ∧ r.Code = "VALIDATION_ERROR") ∧
      (e.Code ∈ [CodeInternal] →
        e.GRPCStatus.code = codes.Internal ∧ r.Code = "INTERNAL_ERROR") ∧
      (e.Code ∉ enumCodes →
        e.GRPCStatus.code = codes.Internal ∧ r.Code = "INTERNAL_ERROR") := by
  obtain ⟨t1, t2, t3, t4, t5, t6, t7, t8, t9⟩ := roundtrip_table
  refine ⟨{ Code := appCodeOf (grpcCodeOf e.Code), Message := e.Message,
            Cause := GoError.statusError (grpcCodeOf e.Code) e.Message }, ?_, rfl, rfl,
          appCodeOf_range (grpcCodeOf e.Code), t1 e.Code, t2 e.Code, t3 e.Code, t4 e.Code,
          t5 e.Code, t6 e.Code, t7 e.Code, t8 e.Code, t9 e.Code, ?_⟩
  · rw [GRPCStatus_Err, FromGRPCError_statusError]
  · intro hmem
    have hg : grpcCodeOf e.Code = codes.Internal := grpcCodeOf_not_enum e.Code hmem
    refine ⟨hg, ?_⟩
    show appCodeOf (grpcCodeOf e.Code) = "INTERNAL_ERROR"
    rw [hg]
    decide

/-- C1 at concrete inputs: `URL_EXPIRED` comes back as `NOT_FOUND`, `EMAIL_TAKEN` as
`ALREADY_EXISTS`, each with its message. -/
theorem FromGRPCError_GRPCStatus_roundtrip_witness :
    FromGRPCError (New CodeURLExpired "link expired").GRPCStatus.Err
      = Outcome.returns (some
          { Code := "NOT_FOUND", Message := "link expired",
            Cause := GoError.statusError codes.NotFound "link expired" }) ∧
    FromGRPCError (Wrap (GoError.errorString "duplicate key") CodeEmailTaken
        "email already registered").GRPCStatus.Err
      = Outcome.returns (some
          { Code := "ALREADY_EXISTS", Message := "email already registered",
            Cause := GoError.statusError codes.AlreadyExists "email already registered" }) ∧
    (∃ r : AppError,
      FromGRPCError (New CodeURLExpired "link expired").GRPCStatus.Err
        = Outcome.returns (some r) ∧
      r.Message = "link expired" ∧ r.Code = "NOT_FOUND") :=
  ⟨rfl, rfl,
   (FromGRPCError_GRPCStatus_roundtrip (New CodeURLExpired "link expired")).elim
     (fun r h => ⟨r, h.1, h.2.1, (h.2.2.2.2.2.1 (by decide)).2⟩)⟩

/-- C2: default branch. For a code string outside the 24 codes of the enum,
`HTTPStatus` is 500 and `GRPCStatus` has code `Internal`, whatever the other
fields are. -/
theorem unknown_code_defaults (e : AppError) (h : e.Code ∉ enumCodes) :
    e.HTTPStatus = 500 ∧ e.GRPCStatus.code = codes.Internal := by
  simp only [enumCodes, List.mem_cons, List.mem_singleton, not_or, List.not_mem_nil,
    not_false_eq_true, and_true] at h
  obtain ⟨h1, h2, h3, h4, h5, h6, h7, h8, h9, h10, h11, h12, h13, h14, h15, h16, h17, h18,
    h19, h20, h21, h22, h23, h24⟩ := h
  constructor
  · simp [AppError.HTTPStatus, h2, h3, h4, h5, h6, h7, h8, h9, h10, h11, h12, h13, h14,
      h15, h16, h17, h18, h19, h20, h21, h22, h23, h24]
  · simp [AppError.GRPCStatus, status.New, grpcCodeOf, h2, h3, h4, h5, h6, h7, h8, h9, h10,
      h11, h12, h13, h14, h15, h16, h17, h18, h19, h20, h21, h22, h23, h24]

/-- C2 at a concrete input: the made-up code `TEAPOT`, with a field and a cause set. -/
theorem unknown_code_defaults_witness :
    (({ Code := "TEAPOT", Message := "short and stout", Field := "spout",
        Cause := GoError.errorString "tipped over" } : AppError).HTTPStatus = 500) ∧
    (({ Code := "TEAPOT", Message := "short and stout", Field := "spout",
        Cause := GoError.errorString "tipped over" } : AppError).GRPCStatus.code =
      codes.Internal) :=
  unknown_code_defaults
    { Code := "TEAPOT", Message := "short and stout", Field := "spout",
      Cause := GoError.errorString "tipped over" } (by decide)

/-- C3: for every `AppError`, whatever its code, the message of the status that
`GRPCStatus` returns is `e.Message` itself, and stays so when `Field`, `Details`
and `Cause` are replaced by anything else. -/
theorem GRPCStatus_message_verbatim (e : AppError) :
    e.GRPCStatus.message = e.Message ∧
    ∀ (field : String) (details : Option DetailMap) (cause : GoError),
      ({ e with Field := field, Details := details, Cause := cause } : AppError).GRPCStatus.message
        = e.GRPCStatus.message :=
  ⟨rfl, fun _ _ _ => rfl⟩

/-- C4, as stated, fails at `FailedPrecondition`: the reverse table picks
`VALIDATION_ERROR` for it, and the forward table sends `VALIDATION_ERROR` to
`InvalidArgument`, not back to `FailedPrecondition`. -/
theorem reverse_table_FailedPrecondition_not_inverted :
    appCodeOf codes.FailedPrecondition = CodeValidation ∧
    (New (appCodeOf codes.FailedPrecondition) "precondition failed").GRPCStatus.code
      = codes.InvalidArgument ∧
    (New (appCodeOf codes.FailedPrecondition) "precondition failed").GRPCStatus.code
      ≠ codes.FailedPrecondition := by
  decide

/-- C4, amended: for each of the seven RPC codes `InvalidArgument`, `NotFound`,
`AlreadyExists`, `Unauthenticated`, `PermissionDenied`, `ResourceExhausted` and
`DeadlineExceeded`, the error code that `FromGRPCError` picks is sent by
`GRPCStatus` back to that same RPC code, for any `AppError` carrying it; for
`FailedPrecondition` the error code picked is `VALIDATION_ERROR`, which
`GRPCStatus` sends to `InvalidArgument`. -/
theorem reverse_table_inverts_forward (c : codes.Code) (e : AppError)
    (hc : c ∈ [codes.InvalidArgument, codes.NotFound, codes.AlreadyExists,
      codes.Unauthenticated, codes.PermissionDenied, codes.ResourceExhausted,
      codes.DeadlineExceeded, codes.FailedPrecondition])
    (he : e.Code = appCodeOf c) :
    e.GRPCStatus.code = (if c = codes.FailedPrecondition then codes.InvalidArgument else c) := by
  simp only [AppError.GRPCStatus, status.New, he]
  simp only [List.mem_cons, List.mem_singleton, List.not_mem_nil, or_false] at hc
  rcases hc with h | h | h | h | h | h | h | h <;> subst h <;> decide

/-- C4 amended, at a concrete input: `NotFound` comes back as `NotFound`. -/
theorem reverse_table_inverts_forward_witness :
    (New CodeNotFound "no such link").GRPCStatus.code = codes.NotFound :=
  reverse_table_inverts_forward codes.NotFound (New CodeNotFound "no such link")
    (by decide) (by decide)

/-- C5 at the failing input: a non-nil error that is no RPC status, such as
`errors.New("connection refused")`, comes back as an `AppError` whose `Cause`
(and so `Unwrap()`) is nil: the original error is dropped. -/
theorem undecodable_error_cause_dropped :
    GoError.errorString "connection refused" ≠ GoError.nil ∧
    status.FromError (GoError.errorString "connection refused")
      = Outcome.returns (status.New codes.Unknown "connection refused", false) ∧
    FromGRPCError (GoError.errorString "connection refused")
      = Outcome.returns (some (Internal "unknown gRPC error")) ∧
    (Internal "unknown gRPC error").Unwrap = GoError.nil ∧
    (Internal "unknown gRPC error").Cause = GoError.nil := by
  refine ⟨by simp, rfl, rfl, rfl, rfl⟩

/-- C6, as stated, fails on a non-nil error interface that holds a nil `*AppError`:
it is not nil, so it passes the guard of line 264, and `status.FromError` calls
`GRPCStatus()` on the nil receiver, which panics at line 221; no `AppError` comes
back. -/
theorem FromGRPCError_nil_pointer_panics :
    pointerToError none ≠ GoError.nil ∧
    (pointerToError none).isNil = false ∧
    status.FromError (pointerToError none) = Outcome.panics ∧
    FromGRPCError (pointerToError none) = Outcome.panics ∧
    ¬ ∃ r : AppError, FromGRPCError (pointerToError none) = Outcome.returns (some r) := by
  refine ⟨by simp [pointerToError], rfl, rfl, rfl, ?_⟩
  rintro ⟨r, hr⟩
  have hp : FromGRPCError (pointerToError none) = Outcome.panics := rfl
  rw [hp] at hr
  cases hr

/-- C6, amended: `FromGRPCError` returns nil exactly when it is given nil, and every
non-nil input that does not hold a nil `*AppError` (itself, or as the first error
with a `GRPCStatus()` method behind wrapping errors) gives a non-nil `AppError`. -/
theorem FromGRPCError_nil_iff (err : GoError) :
    (FromGRPCError err = Outcome.returns none ↔ err = GoError.nil) ∧
    (err ≠ GoError.nil → holdsNilAppError err = false →
      ∃ r : AppError, FromGRPCError err = Outcome.returns (some r)) := by
  have hsome : err ≠ GoError.nil → holdsNilAppError err = false →
      ∃ r : AppError, FromGRPCError err = Outcome.returns (some r) := by
    intro hnil hhold
    cases err with
    | nil => exact absurd rfl hnil
    | errorString s => exact ⟨_, rfl⟩
    | wrapError msg inner =>
        rcases FromError_wrapError msg inner with ⟨h1, _⟩ | ⟨_, st, ok, hst⟩
        · simp [holdsNilAppError, h1] at hhold
        · cases ok with
          | false =>
              exact ⟨Internal "unknown gRPC error", by simp [FromGRPCError, GoError.isNil, hst]⟩
          | true =>
              exact ⟨{ Code := appCodeOf st.code, Message := st.message,
                       Cause := GoError.wrapError msg inner },
                by simp [FromGRPCError, GoError.isNil, hst]⟩
    | statusError c m => exact ⟨_, rfl⟩
    | appError code msg field details cause => exact ⟨_, rfl⟩
    | nilAppError => simp [holdsNilAppError] at hhold
  refine ⟨⟨?_, ?_⟩, hsome⟩
  · intro h
    by_contra hnil
    by_cases hhold : holdsNilAppError err = false
    · obtain ⟨r, hr⟩ := hsome hnil hhold
      rw [hr] at h
      cases h
    · have hn := GoError.isNil_eq_false err hnil
      cases err with
      | wrapError msg inner =>
          rcases FromError_wrapError msg inner with ⟨_, hp⟩ | ⟨h1, _⟩
          · simp [FromGRPCError, GoError.isNil, hp] at h
          · simp [holdsNilAppError, h1] at hhold
      | nilAppError => simp [FromGRPCError, GoError.isNil, status.FromError] at h
      | nil => exact hnil rfl
      | errorString s => simp [holdsNilAppError] at hhold
      | statusError c m => simp [holdsNilAppError] at hhold
      | appError code msg field details cause => simp [holdsNilAppError] at hhold
  · intro h
    subst h
    rfl

/-- C6 amended, at a concrete input: a status error behind a wrapping error. -/
theorem FromGRPCError_nil_iff_witness :
    ∃ r : AppError,
      FromGRPCError (GoError.wrapError "lookup: rpc error"
        (GoError.statusError codes.NotFound "no such link")) = Outcome.returns (some r) :=
  (FromGRPCError_nil_iff (GoError.wrapError "lookup: rpc error"
    (GoError.statusError codes.NotFound "no such link"))).2 (by simp) rfl

/-- C7: a non-nil error that `status.FromError` cannot decode (it returns with
`ok` false) comes back as `Internal("unknown gRPC error")`: code `INTERNAL_ERROR`,
message exactly `unknown gRPC error`, whatever the text of the input. -/
theorem FromGRPCError_undecodable (err : GoError) (st : Status) (hnil : err ≠ GoError.nil)
    (hok : status.FromError err = Outcome.returns (st, false)) :
    ∃ r : AppError, FromGRPCError err = Outcome.returns (some r) ∧ r.Code = CodeInternal ∧
      r.Message = "unknown gRPC error" := by
  refine ⟨Internal "unknown gRPC error", ?_, rfl, rfl⟩
  unfold FromGRPCError
  rw [GoError.isNil_eq_false err hnil, hok]
  simp

/-- C7 at a concrete input: a wrapped text error with no status on its chain. -/
theorem FromGRPCError_undecodable_witness :
    ∃ r : AppError,
      FromGRPCError (GoError.wrapError "dial: refused" (GoError.errorString "refused"))
        = Outcome.returns (some r) ∧
      r.Code = CodeInternal ∧ r.Message = "unknown gRPC error" :=
  FromGRPCError_undecodable (GoError.wrapError "dial: refused" (GoError.errorString "refused"))
    (status.New codes.Unknown "dial: refused") (by simp) rfl

/-- A chain of wraps around a non-nil error is not nil. -/
theorem wrapChain_ne_nil (base : GoError) (layers : List (String × String))
    (h : base ≠ GoError.nil) : wrapChain base layers ≠ GoError.nil := by
  cases layers with
  | nil => simpa [wrapChain] using h
  | cons layer rest => simp [wrapChain, AppError.toError]

/-- The text of an `AppError` whose cause is not nil. -/
theorem AppError.Error_of_cause (e : AppError) (h : e.Cause ≠ GoError.nil) :
    e.Error = e.Code ++ ": " ++ e.Message ++ " (caused by: " ++ e.Cause.Error ++ ")" := by
  have hn : e.Cause.isNil = false := by
    cases hc : e.Cause.isNil
    · rfl
    · exact absurd ((GoError.isNil_iff e.Cause).mp hc) h
  simp [AppError.Error, hn]

/-- C8: `e.Error()` is `<Code>: <Message>` when `e.Cause` is nil and
`<Code>: <Message> (caused by: <text of Cause>)` when it is not; when the cause is
itself an `AppError` the text nested is that error's whole `Error()`, so a chain of
`Wrap` calls around a non-nil error renders every layer, the innermost last. -/
theorem AppError_Error_rendering (e : AppError) :
    (e.Cause = GoError.nil → e.Error = e.Code ++ ": " ++ e.Message) ∧
    (e.Cause ≠ GoError.nil →
      e.Error = e.Code ++ ": " ++ e.Message ++ " (caused by: " ++ e.Cause.Error ++ ")") ∧
    (∀ inner : AppError, e.Cause = inner.toError →
      e.Error = e.Code ++ ": " ++ e.Message ++ " (caused by: " ++ inner.Error ++ ")") ∧
    (∀ (base : GoError) (layers : List (String × String)), base ≠ GoError.nil →
      e.Cause = wrapChain base layers →
      e.Error = e.Code ++ ": " ++ e.Message ++ " (caused by: " ++
        layers.foldr (fun layer acc => layer.1 ++ ": " ++ layer.2 ++ " (caused by: " ++ acc ++ ")")
          base.Error ++ ")") := by
  have chain : ∀ (base : GoError) (layers : List (String × String)), base ≠ GoError.nil →
      (wrapChain base layers).Error =
        layers.foldr (fun layer acc => layer.1 ++ ": " ++ layer.2 ++ " (caused by: " ++ acc ++ ")")
          base.Error := by
    intro base layers hb
    induction layers with
    | nil => rfl
    | cons layer rest ih =>
        have hr := wrapChain_ne_nil base rest hb
        simp only [wrapChain, List.foldr_cons]
        rw [AppError.toError_Error, AppError.Error_of_cause _ (by simpa [Wrap] using hr)]
        simp only [Wrap]
        rw [ih]
  refine ⟨?_, AppError.Error_of_cause e, ?_, ?_⟩
  · intro h
    simp [AppError.Error, h, GoError.isNil]
  · intro inner h
    have hne : e.Cause ≠ GoError.nil := by rw [h]; simp [AppError.toError]
    rw [AppError.Error_of_cause e hne, h, AppError.toError_Error]
  · intro base layers hb h
    have hne : e.Cause ≠ GoError.nil := by rw [h]; exact wrapChain_ne_nil base layers hb
    rw [AppError.Error_of_cause e hne, h, chain base layers hb]

/-- C8 at a concrete input: two wraps around `errors.New("disk full")`. -/
theorem AppError_Error_rendering_witness :
    (Wrap (Wrap (GoError.errorString "disk full") CodeInternal "write failed").toError
        CodeTimeout "save timed out").Error
      = "TIMEOUT: save timed out (caused by: INTERNAL_ERROR: write failed (caused by: disk full))" :=
  (AppError_Error_rendering
    (Wrap (Wrap (GoError.errorString "disk full") CodeInternal "write failed").toError
      CodeTimeout "save timed out")).2.2.2
    (GoError.errorString "disk full") [(CodeInternal, "write failed")] (by simp) rfl

/-- The errors held after a list of calls: those held before, then one per call. -/
theorem foldl_run_Errors (Sprintf : String → List Value → String) (calls : List AddCall)
    (v : ValidationErrors) :
    ∃ added : List AppError, added.length = calls.length ∧
      (calls.foldl (AddCall.run Sprintf) v).Errors = v.Errors ++ added := by
  induction calls generalizing v with
  | nil => exact ⟨[], rfl, by simp⟩
  | cons call rest ih =>
      obtain ⟨added, hlen, hadd⟩ := ih (AddCall.run Sprintf v call)
      cases call with
      | add field code message =>
          refine ⟨{ Code := code, Message := message, Field := field } :: added, by simp [hlen], ?_⟩
          simpa [AddCall.run, ValidationErrors.Add] using hadd
      | addf field code format args =>
          refine ⟨{ Code := code, Message := Sprintf format args, Field := field } :: added,
            by simp [hlen], ?_⟩
          simpa [AddCall.run, ValidationErrors.Addf] using hadd

/-- C9: `WithDetail` merges with last write wins. After `e.WithDetail(k, v)` the
detail map is non-nil and holds `v` at `k`, every other key reads as it did before
(absent when the map was nil), and `Code`, `Message`, `Field` and `Cause` are
unchanged; and `New(c, m).WithDetail("a",1).WithDetail("b",2).WithDetail("a",3)`
has details exactly `{a:3, b:2}`. -/
theorem WithDetail_last_write_wins (e : AppError) (k : String) (v : Value) :
    (∃ m : DetailMap, (e.WithDetail k v).Details = some m ∧ m.lookup k = some v ∧
      ∀ k2 : String, k2 ≠ k → m.lookup k2 = e.Details.bind (fun d => d.lookup k2)) ∧
    (e.WithDetail k v).Code = e.Code ∧ (e.WithDetail k v).Message = e.Message ∧
    (e.WithDetail k v).Field = e.Field ∧ (e.WithDetail k v).Cause = e.Cause ∧
    (∀ c msg : String,
      ((((New c msg).WithDetail "a" (Value.int 1)).WithDetail "b" (Value.int 2)).WithDetail
        "a" (Value.int 3)).Details
        = some (Finmap.insert "a" (Value.int 3) (Finmap.singleton "b" (Value.int 2)))) := by
  refine ⟨?_, rfl, rfl, rfl, rfl, ?_⟩
  · cases hd : e.Details with
    | none =>
        refine ⟨(∅ : DetailMap).insert k v, by simp [AppError.WithDetail, hd], by simp, ?_⟩
        intro k2 hk
        simp [Finmap.lookup_insert_of_ne _ hk]
    | some d =>
        refine ⟨d.insert k v, by simp [AppError.WithDetail, hd], by simp, ?_⟩
        intro k2 hk
        simp [Finmap.lookup_insert_of_ne _ hk]
  · intro c msg
    simp only [AppError.WithDetail, New]
    exact congrArg some (by decide)

/-- C10: `v.Error()` is `validation failed` on an empty batch and otherwise
`validation failed: ` followed by the `Message` of the first error; after
`NewValidationErrors()` and any non-empty sequence of `Add`/`Addf` calls it names the
message of the first call, and a further `Add` or `Addf` on a non-empty batch leaves
it as it was. -/
theorem ValidationErrors_Error_summary (Sprintf : String → List Value → String) :
    (∀ v : ValidationErrors, v.Errors = [] → v.Error = "validation failed") ∧
    (∀ (v : ValidationErrors) (first : AppError) (rest : List AppError),
      v.Errors = first :: rest → v.Error = "validation failed: " ++ first.Message) ∧
    (runCalls Sprintf []).Error = "validation failed" ∧
    (∀ (call : AddCall) (calls : List AddCall),
      (runCalls Sprintf (call :: calls)).Error
        = "validation failed: " ++ call.message Sprintf) ∧
    (∀ (v : ValidationErrors) (call : AddCall), v.Errors ≠ [] →
      (call.run Sprintf v).Error = v.Error) := by
  refine ⟨?_, ?_, rfl, ?_, ?_⟩
  · intro v h
    simp [ValidationErrors.Error, h]
  · intro v first rest h
    simp [ValidationErrors.Error, h]
  · intro call calls
    obtain ⟨added, _, hadd⟩ :=
      foldl_run_Errors Sprintf calls (AddCall.run Sprintf NewValidationErrors call)
    unfold runCalls
    rw [List.foldl_cons]
    cases call with
    | add field code message =>
        simp only [AddCall.run] at hadd ⊢
        simp only [ValidationErrors.Error]
        rw [hadd]
        simp [ValidationErrors.Add, NewValidationErrors, AddCall.message]
    | addf field code format args =>
        simp only [AddCall.run] at hadd ⊢
        simp only [ValidationErrors.Error]
        rw [hadd]
        simp [ValidationErrors.Addf, NewValidationErrors, AddCall.message]
  · intro v call hne
    obtain ⟨errs⟩ := v
    cases errs with
    | nil => exact absurd rfl hne
    | cons first rest =>
        cases call <;>
          simp [AddCall.run, ValidationErrors.Add, ValidationErrors.Addf, ValidationErrors.Error]

/-- C10 at a concrete input: the batch of the specification's example, with a second
error added after the first. -/
theorem ValidationErrors_Error_summary_witness :
    (runCalls (fun format _ => format)
      [AddCall.add "email" CodeEmailTaken "email already registered",
       AddCall.addf "name" CodeUsernameTaken "name taken" []]).Error
      = "validation failed: email already registered" :=
  (ValidationErrors_Error_summary (fun format _ => format)).2.2.2.1
    (AddCall.add "email" CodeEmailTaken "email already registered")
    [AddCall.addf "name" CodeUsernameTaken "name taken" []]

/-! ## Lemmas for the later claims -/

/-- The fields held after a list of calls: those held before, then the field
argument of each call, in order. -/
theorem foldl_run_fields (Sprintf : String → List Value → String) (calls : List AddCall)
    (v : ValidationErrors) :
    (calls.foldl (AddCall.run Sprintf) v).Errors.map AppError.Field
      = v.Errors.map AppError.Field ++ calls.map AddCall.field := by
  induction calls generalizing v with
  | nil => simp
  | cons call rest ih =>
      rw [List.foldl_cons, ih]
      cases call <;>
        simp [AddCall.run, ValidationErrors.Add, ValidationErrors.Addf, AddCall.field]

/-- C11, as stated, fails: `Add` stores the field it is given, so one `Add` call
with the empty string as field leaves a batch whose only error has an empty `Field`. -/
theorem Add_empty_field_kept :
    (NewValidationErrors.Add "" CodeValidation "value is required").Errors.map AppError.Field
      = [""] := by
  decide

/-- C11, amended: in every batch reached from `NewValidationErrors()` by `Add` and
`Addf` calls, the errors carry, in order, the field arguments of the calls; so every
error has a non-empty `Field` when every call was given a non-empty field. -/
theorem batch_fields_are_call_fields (Sprintf : String → List Value → String)
    (calls : List AddCall) :
    (runCalls Sprintf calls).Errors.map AppError.Field = calls.map AddCall.field ∧
    ((∀ call ∈ calls, call.field ≠ "") →
      ∀ e ∈ (runCalls Sprintf calls).Errors, e.Field ≠ "") := by
  have hmap : (runCalls Sprintf calls).Errors.map AppError.Field = calls.map AddCall.field := by
    unfold runCalls
    rw [foldl_run_fields]
    simp [NewValidationErrors]
  refine ⟨hmap, ?_⟩
  intro hcalls e he
  have hmem : e.Field ∈ (runCalls Sprintf calls).Errors.map AppError.Field :=
    List.mem_map_of_mem AppError.Field he
  rw [hmap] at hmem
  obtain ⟨call, hcall, hfield⟩ := List.mem_map.mp hmem
  rw [← hfield]
  exact hcalls call hcall

/-- C11 amended, at a concrete input: two calls with the fields `email` and `name`. -/
theorem batch_fields_are_call_fields_witness :
    (runCalls (fun format _ => format)
        [AddCall.add "email" CodeEmailTaken "email already registered",
         AddCall.addf "name" CodeUsernameTaken "name taken" []]).Errors.map AppError.Field
      = ["email", "name"] ∧
    ∀ e ∈ (runCalls (fun format _ => format)
        [AddCall.add "email" CodeEmailTaken "email already registered",
         AddCall.addf "name" CodeUsernameTaken "name taken" []]).Errors, e.Field ≠ "" :=
  ⟨(batch_fields_are_call_fields (fun format _ => format)
      [AddCall.add "email" CodeEmailTaken "email already registered",
       AddCall.addf "name" CodeUsernameTaken "name taken" []]).1,
   (batch_fields_are_call_fields (fun format _ => format)
      [AddCall.add "email" CodeEmailTaken "email already registered",
       AddCall.addf "name" CodeUsernameTaken "name taken" []]).2 (by decide)⟩

/-- Walking the chain for a `*AppError` finds the first error of the cause chain
whose type is `*AppError`, and gives the pointer it holds. -/
theorem errorsAsAppError_eq_findSome (err : GoError) :
    errorsAsAppError err = (causeChain err).findSome? GoError.asAppError := by
  induction err with
  | nil => rfl
  | errorString s => rfl
  | wrapError msg inner ih => simpa [errorsAsAppError, causeChain, GoError.asAppError] using ih
  | statusError c m => rfl
  | appError code msg field details cause _ =>
      simp [errorsAsAppError, causeChain, GoError.asAppError]
  | nilAppError => rfl

/-- `AsAppError` returns the pointer the chain walk stored, nil when it found none. -/
theorem AsAppError_eq (err : GoError) : AsAppError err = (errorsAsAppError err).join := by
  unfold AsAppError
  cases errorsAsAppError err <;> rfl

/-- C12, as stated, fails on a non-nil error interface that holds a nil `*AppError`:
`errors.As` matches on the type and stores the nil pointer, so `IsAppError` is true
while `AsAppError` returns nil. -/
theorem IsAppError_true_AsAppError_nil :
    pointerToError none ≠ GoError.nil ∧
    IsAppError (pointerToError none) = true ∧
    AsAppError (pointerToError none) = none ∧
    ¬ (IsAppError (pointerToError none) = true ↔ AsAppError (pointerToError none) ≠ none) := by
  refine ⟨by simp [pointerToError], rfl, rfl, ?_⟩
  intro h
  exact h.mp rfl rfl

/-- C12, amended: chain walking. `IsAppError(err)` is true iff some error of the cause
chain of `err` (itself, or reached by unwrapping) has type `*AppError`;
`AsAppError(err)` is the pointer held by the first such error, outermost first, and
nil when there is none; `AsAppError(e)` is `e` for every `*AppError` `e`, nil or not.
A non-nil `AsAppError(err)` always means `IsAppError(err)`, and `IsAppError(err)`
holds iff `AsAppError(err)` is non-nil whenever the first `*AppError` of the chain is
not a nil pointer. -/
theorem IsAppError_AsAppError_chain (err : GoError) :
    (IsAppError err = true ↔ ∃ x ∈ causeChain err, (GoError.asAppError x).isSome = true) ∧
    AsAppError err = ((causeChain err).findSome? GoError.asAppError).join ∧
    (IsAppError err = false → AsAppError err = none) ∧
    (AsAppError err ≠ none → IsAppError err = true) ∧
    ((causeChain err).findSome? GoError.asAppError ≠ some none →
      (IsAppError err = true ↔ AsAppError err ≠ none)) ∧
    (∀ e : AppError, AsAppError e.toError = some e ∧ IsAppError e.toError = true) ∧
    (∀ p : Option AppError,
      AsAppError (pointerToError p) = p ∧ IsAppError (pointerToError p) = true) := by
  have hfind := errorsAsAppError_eq_findSome err
  refine ⟨?_, ?_, ?_, ?_, ?_, ?_, ?_⟩
  · unfold IsAppError
    rw [hfind]
    simp [List.findSome?_isSome_iff]
  · rw [AsAppError_eq, hfind]
  · rw [AsAppError_eq]
    unfold IsAppError
    cases errorsAsAppError err <;> simp
  · rw [AsAppError_eq]
    unfold IsAppError
    cases errorsAsAppError err <;> simp
  · rw [← hfind, AsAppError_eq]
    unfold IsAppError
    intro hne
    cases h : errorsAsAppError err with
    | none => simp
    | some p =>
        cases p with
        | none => exact absurd h hne
        | some e => simp
  · intro e
    exact ⟨rfl, rfl⟩
  · intro p
    cases p with
    | none => exact ⟨rfl, rfl⟩
    | some e => exact ⟨rfl, rfl⟩

/-- C12 amended, at concrete inputs: an `AppError` wrapped by a text wrapper is found,
and an error with no `AppError` on its chain is not. -/
theorem IsAppError_AsAppError_chain_witness :
    (IsAppError (GoError.wrapError "lookup: NOT_FOUND: no such link"
        (New CodeNotFound "no such link").toError) = true ↔
      AsAppError (GoError.wrapError "lookup: NOT_FOUND: no such link"
        (New CodeNotFound "no such link").toError) ≠ none) ∧
    AsAppError (GoError.wrapError "lookup: NOT_FOUND: no such link"
        (New CodeNotFound "no such link").toError) = some (New CodeNotFound "no such link") ∧
    IsAppError (GoError.wrapError "lookup: NOT_FOUND: no such link"
        (New CodeNotFound "no such link").toError) = true ∧
    IsAppError (GoError.wrapError "dial: refused" (GoError.errorString "refused")) = false ∧
    AsAppError (GoError.wrapError "dial: refused" (GoError.errorString "refused")) = none :=
  ⟨(IsAppError_AsAppError_chain (GoError.wrapError "lookup: NOT_FOUND: no such link"
      (New CodeNotFound "no such link").toError)).2.2.2.2.1
      (by simp [causeChain, GoError.asAppError, AppError.toError, New]),
   rfl, rfl, rfl, rfl⟩

/-- The HTTP status and the gRPC code read only the `Code` of an error. -/
theorem HTTPStatus_of_Code (e : AppError) : e.HTTPStatus = (New e.Code "").HTTPStatus :=
  rfl

/-- Outside the enum the HTTP table falls to its default. -/
theorem HTTPStatus_not_enum (code : String) (h : code ∉ enumCodes) :
    (New code "").HTTPStatus = http.StatusInternalServerError := by
  simp only [enumCodes, List.mem_cons, List.mem_singleton, not_or, List.not_mem_nil,
    not_false_eq_true, and_true] at h
  obtain ⟨_, h2, h3, h4, h5, h6, h7, h8, h9, h10, h11, h12, h13, h14, h15, h16, h17, h18,
    h19, h20, h21, h22, h23, h24⟩ := h
  simp [AppError.HTTPStatus, New, h2, h3, h4, h5, h6, h7, h8, h9, h10, h11, h12, h13, h14,
    h15, h16, h17, h18, h19, h20, h21, h22, h23, h24]

set_option maxRecDepth 8192 in
/-- The two forward tables on the 24 codes of the enum, read off case by case:
only `INTERNAL_ERROR` gets 500 or `Internal`; the other codes get one of eight HTTP
statuses and a gRPC code that is neither `Internal` nor `OK`. -/
theorem enum_forward_tables :
    ∀ code ∈ enumCodes,
      ((New code "").HTTPStatus = 500 ↔ code = CodeInternal) ∧
      (grpcCodeOf code = codes.Internal ↔ code = CodeInternal) ∧
      (code ≠ CodeInternal →
        (New code "").HTTPStatus ∈ [400, 401, 403, 404, 408, 409, 422, 429] ∧
        grpcCodeOf code ≠ codes.OK) := by
  decide

set_option maxRecDepth 8192 in
/-- The HTTP status across an RPC hop on the 24 codes of the enum, read off case by
case: the same, except that `URL_EXPIRED` goes from 422 to 404 and `URL_NOT_ACCESSIBLE`
from 422 to 400. -/
theorem enum_hop_table :
    ∀ code ∈ enumCodes,
      (code ≠ CodeURLExpired → code ≠ CodeURLNotAccessible →
        (New (appCodeOf (grpcCodeOf code)) "").HTTPStatus = (New code "").HTTPStatus) ∧
      (code = CodeURLExpired →
        (New code "").HTTPStatus = 422 ∧ (New (appCodeOf (grpcCodeOf code)) "").HTTPStatus = 404) ∧
      (code = CodeURLNotAccessible →
        (New code "").HTTPStatus = 422 ∧ (New (appCodeOf (grpcCodeOf code)) "").HTTPStatus = 400) := by
  decide

/-- C13: an RPC hop keeps the HTTP status for every code but two. For every
`AppError` `e`, `FromGRPCError(e.GRPCStatus().Err())` is an `AppError` whose
`HTTPStatus()` is `e.HTTPStatus()` when `e.Code` is neither `URL_EXPIRED` nor
`URL_NOT_ACCESSIBLE` (codes outside the enum included); for `URL_EXPIRED` the status
goes from 422 to 404 and for `URL_NOT_ACCESSIBLE` from 422 to 400. -/
theorem rpc_hop_HTTPStatus (e : AppError) :
    ∃ r : AppError, FromGRPCError e.GRPCStatus.Err = Outcome.returns (some r) ∧
      (e.Code ≠ CodeURLExpired → e.Code ≠ CodeURLNotAccessible →
        r.HTTPStatus = e.HTTPStatus) ∧
      (e.Code = CodeURLExpired → e.HTTPStatus = 422 ∧ r.HTTPStatus = 404) ∧
      (e.Code = CodeURLNotAccessible → e.HTTPStatus = 422 ∧ r.HTTPStatus = 400) := by
  refine ⟨{ Code := appCodeOf (grpcCodeOf e.Code), Message := e.Message,
            Cause := GoError.statusError (grpcCodeOf e.Code) e.Message }, ?_, ?_⟩
  · rw [GRPCStatus_Err, FromGRPCError_statusError]
  · rw [HTTPStatus_of_Code e]
    show (_ → _ → (New (appCodeOf (grpcCodeOf e.Code)) "").HTTPStatus = _) ∧
      (_ → _ ∧ (New (appCodeOf (grpcCodeOf e.Code)) "").HTTPStatus = 404) ∧
      (_ → _ ∧ (New (appCodeOf (grpcCodeOf e.Code)) "").HTTPStatus = 400)
    by_cases hmem : e.Code ∈ enumCodes
    · exact enum_hop_table e.Code hmem
    · have h1 : e.Code ≠ CodeURLExpired := fun h => hmem (by rw [h]; decide)
      have h2 : e.Code ≠ CodeURLNotAccessible := fun h => hmem (by rw [h]; decide)
      refine ⟨fun _ _ => ?_, fun h => absurd h h1, fun h => absurd h h2⟩
      rw [grpcCodeOf_not_enum e.Code hmem, HTTPStatus_not_enum e.Code hmem]
      decide

/-- C13 at concrete inputs: `TIMEOUT` keeps 408 across the hop, `URL_EXPIRED` comes
back as `NOT_FOUND` with 404. -/
theorem rpc_hop_HTTPStatus_witness :
    (∃ r : AppError,
      FromGRPCError (Wrap (GoError.errorString "i/o timeout") CodeTimeout
        "db lookup timed out").GRPCStatus.Err = Outcome.returns (some r) ∧
      r.HTTPStatus = 408) ∧
    (∃ r : AppError,
      FromGRPCError (New CodeURLExpired "link expired").GRPCStatus.Err
        = Outcome.returns (some r) ∧
      (New CodeURLExpired "link expired").HTTPStatus = 422 ∧ r.HTTPStatus = 404) :=
  ⟨(rpc_hop_HTTPStatus (Wrap (GoError.errorString "i/o timeout") CodeTimeout
      "db lookup timed out")).elim
      (fun r h => ⟨r, h.1, h.2.1 (by decide) (by decide)⟩),
   (rpc_hop_HTTPStatus (New CodeURLExpired "link expired")).elim
      (fun r h => ⟨r, h.1, h.2.2.1 rfl⟩)⟩

/-- C14: the two forward tables fall back together. For every code string,
`HTTPStatus` is 500 iff the `GRPCStatus` code is `Internal`; among the 24 codes of
the enum this happens only for `INTERNAL_ERROR`, and every other code of the enum
gets an HTTP status among 400, 401, 403, 404, 408, 409, 422, 429 and a gRPC code that
is neither `Internal` nor `OK`. -/
theorem forward_tables_fall_back_together (e : AppError) :
    (e.HTTPStatus = 500 ↔ e.GRPCStatus.code = codes.Internal) ∧
    (e.Code ∈ enumCodes → (e.HTTPStatus = 500 ↔ e.Code = CodeInternal)) ∧
    (e.Code ∈ enumCodes → e.Code ≠ CodeInternal →
      e.HTTPStatus ∈ [400, 401, 403, 404, 408, 409, 422, 429] ∧
      e.GRPCStatus.code ≠ codes.Internal ∧ e.GRPCStatus.code ≠ codes.OK) := by
  rw [HTTPStatus_of_Code e]
  show ((New e.Code "").HTTPStatus = 500 ↔ grpcCodeOf e.Code = codes.Internal) ∧
    (_ → ((New e.Code "").HTTPStatus = 500 ↔ _)) ∧
    (_ → _ → (New e.Code "").HTTPStatus ∈ [400, 401, 403, 404, 408, 409, 422, 429] ∧
      grpcCodeOf e.Code ≠ codes.Internal ∧ grpcCodeOf e.Code ≠ codes.OK)
  refine ⟨?_, ?_, ?_⟩
  · by_cases hmem : e.Code ∈ enumCodes
    · obtain ⟨hhttp, hgrpc, _⟩ := enum_forward_tables e.Code hmem
      rw [hhttp, hgrpc]
    · rw [HTTPStatus_not_enum e.Code hmem, grpcCodeOf_not_enum e.Code hmem]
      exact ⟨fun _ => rfl, fun _ => rfl⟩
  · intro hmem
    exact (enum_forward_tables e.Code hmem).1
  · intro hmem hne
    obtain ⟨_, hgrpc, hrest⟩ := enum_forward_tables e.Code hmem
    exact ⟨(hrest hne).1, fun h => hne (hgrpc.mp h), (hrest hne).2⟩

/-- C14 at a concrete input: `EMAIL_TAKEN` gets 409 and `AlreadyExists`. -/
theorem forward_tables_fall_back_together_witness :
    (New CodeEmailTaken "email already registered").HTTPStatus
        ∈ [400, 401, 403, 404, 408, 409, 422, 429] ∧
    (New CodeEmailTaken "email already registered").GRPCStatus.code ≠ codes.Internal ∧
    (New CodeEmailTaken "email already registered").GRPCStatus.code ≠ codes.OK :=
  (forward_tables_fall_back_together (New CodeEmailTaken "email already registered")).2.2
    (by decide) (by decide)
